import Mathlib

/-!
Verification development for a rule-based Bitcoin backtesting system.

The definitions below are a shallow embedding of the trading core:
the decision engine (src/decision_box/trading_logic.py), the trade
executor, the performance-metrics functions (src/backtesting/metrics.py)
and the backtest loop (src/backtesting/backtest_engine.py).

Modelling conventions:
- Python floats are modelled as rationals; the Sharpe-ratio pipeline,
  which takes a real square root, is modelled over the reals.
- pandas timestamps are modelled as integers counting seconds, so one
  second is 1 and one day is 86400.
- Python dict lookups of the form d.get(key, default) are modelled as
  Option-valued record fields read through Option.getD.
- A Python value of NaN produced by the sample standard deviation of a
  series with fewer than two observations is modelled as Option.none;
  the comparisons NaN > 0 and NaN == 0 are false in Python, which the
  embedding mirrors by matching on the Option.
-/

namespace BTCBT

/-- Trading actions, from the decision dicts of trading_logic.py. -/
inductive Action where
  | BUY
  | SELL
  | HOLD
  | PAUSE
deriving DecidableEq

/-- Strategy tags attached to decisions and trades. -/
inductive Strategy where
  | DCA
  | SWING
  | STOP_LOSS
  | TAKE_PROFIT
  | CIRCUIT_BREAKER
  | HOLD
deriving DecidableEq

/-- Module 1 output dict: every key is read with a default in
make_decision, so fields are optional. -/
structure Technical where
  RSI : Option ℚ
  ATR : Option ℚ
  MACD_diff : Option ℚ
  SMA_50 : Option ℚ
  SMA_200 : Option ℚ
deriving DecidableEq

/-- Module 2 output dict (the two keys the decision box reads). -/
structure Sentiment where
  fear_greed_score : Option ℚ
  rag_confidence : Option ℚ
deriving DecidableEq

/-- Predicted direction labels of module 3. -/
inductive Direction where
  | UP
  | DOWN
  | FLAT
deriving DecidableEq

/-- Module 3 output dict: the decision box reads predicted_price and
direction_confidence; the backtest loop also records direction. -/
structure Prediction where
  predicted_price : Option ℚ
  direction_confidence : Option ℚ
  direction : Option Direction := none
deriving DecidableEq

/-- Trading configuration dict; swing_confidence_threshold is read with
config.get and a 0.70 default, hence optional. -/
structure Config where
  initial_capital : ℚ
  dca_amount : ℚ
  swing_amount : ℚ
  rsi_oversold : ℚ
  rsi_overbought : ℚ
  k_atr : ℚ
  fear_threshold : ℚ
  rag_threshold : ℚ
  swing_confidence_threshold : Option ℚ
deriving DecidableEq

/-- One entry of the portfolio trade log.  For a BUY the amount is the
notional in currency; for a SELL it is the quantity of BTC sold. -/
structure Trade where
  date : ℤ
  action : Action
  strategy : Strategy
  price : ℚ
  amount : ℚ
deriving DecidableEq

/-- The mutable portfolio dict owned by TradingDecisionBox. -/
structure Portfolio where
  cash : ℚ
  btc : ℚ
  entry_price : Option ℚ
  last_dca_price : Option ℚ
  trades : List Trade
deriving DecidableEq

/-- Portfolio as initialised in TradingDecisionBox.__init__. -/
def initial_portfolio (config : Config) : Portfolio :=
  { cash := config.initial_capital, btc := 0, entry_price := none,
    last_dca_price := none, trades := [] }

/-- Decision dict produced by make_decision; amount is absent for
HOLD and PAUSE, drawdown is only present for the circuit breaker. -/
structure Decision where
  action : Action
  amount : Option ℚ
  strategy : Strategy
  drawdown : Option ℚ
deriving DecidableEq

/-- TradingDecisionBox._check_circuit_breaker: PAUSE when the portfolio
value falls strictly below 75 percent of the initial capital. -/
def check_circuit_breaker (config : Config) (portfolio : Portfolio)
    (current_price : ℚ) : Option Decision :=
  let portfolio_value := portfolio.cash + portfolio.btc * current_price
  let initial_capital := config.initial_capital
  if portfolio_value < 3/4 * initial_capital then
    some { action := .PAUSE, amount := none, strategy := .CIRCUIT_BREAKER,
           drawdown := some ((initial_capital - portfolio_value) / initial_capital) }
  else
    none

/-- TradingDecisionBox._check_stop_loss: SELL the whole position when
the price breaches entry_price - k_atr * ATR. -/
def check_stop_loss (config : Config) (portfolio : Portfolio)
    (current_price atr : ℚ) : Option Decision :=
  match portfolio.entry_price with
  | none => none
  | some entry =>
    let stop_loss_price := entry - config.k_atr * atr
    if current_price < stop_loss_price then
      some { action := .SELL, amount := some portfolio.btc,
             strategy := .STOP_LOSS, drawdown := none }
    else
      none

/-- TradingDecisionBox._check_take_profit: three exit sub-conditions
checked in order. -/
def check_take_profit (config : Config) (portfolio : Portfolio)
    (rsi macd_diff predicted_price current_price : ℚ) : Option Decision :=
  if portfolio.btc ≤ 1/10000 then
    none
  else
    let portfolio_value := portfolio.cash + portfolio.btc * current_price
    let profit_pct := (portfolio_value - config.initial_capital) / config.initial_capital
    if profit_pct > 15/100 ∧ rsi > 65 then
      some { action := .SELL, amount := some portfolio.btc,
             strategy := .TAKE_PROFIT, drawdown := none }
    else if profit_pct > 10/100 ∧ rsi > 70 then
      some { action := .SELL, amount := some (portfolio.btc * (1/2)),
             strategy := .TAKE_PROFIT, drawdown := none }
    else if rsi > 75 ∧ macd_diff < 0 ∧ predicted_price < current_price * (95/100) then
      some { action := .SELL, amount := some portfolio.btc,
             strategy := .TAKE_PROFIT, drawdown := none }
    else
      none

/-- TradingDecisionBox._check_swing_entry: all four conditions must
hold, and the buy is suppressed entirely when cash cannot cover the
configured swing notional. -/
def check_swing_entry (config : Config) (portfolio : Portfolio)
    (rsi macd_diff predicted_price current_price direction_confidence : ℚ) :
    Option Decision :=
  let extreme_oversold := rsi < config.rsi_oversold
  let bullish_momentum := macd_diff > 0
  let upside_predicted := predicted_price > current_price * (103/100)
  let confidence_threshold := config.swing_confidence_threshold.getD (70/100)
  let high_confidence := direction_confidence > confidence_threshold
  if extreme_oversold ∧ bullish_momentum ∧ upside_predicted ∧ high_confidence then
    if portfolio.cash < config.swing_amount then
      none
    else
      some { action := .BUY, amount := some config.swing_amount,
             strategy := .SWING, drawdown := none }
  else
    none

/-- TradingDecisionBox._check_dca_conditions: RSI oversold OR market
fear triggers a DCA buy, suppressed when cash cannot cover the DCA
notional.  The sma_50 and sma_200 parameters are declared by the source
function but never used in its body, which the embedding mirrors. -/
def check_dca_conditions (config : Config) (portfolio : Portfolio)
    (current_price rsi fg_score rag_confidence : ℚ)
    (sma_50 sma_200 : Option ℚ) : Option Decision :=
  let rsi_oversold := rsi < config.rsi_oversold
  let market_fear := fg_score < config.fear_threshold
  if rsi_oversold ∨ market_fear then
    if portfolio.cash < config.dca_amount then
      none
    else
      some { action := .BUY, amount := some config.dca_amount,
             strategy := .DCA, drawdown := none }
  else
    none

/-- TradingDecisionBox.make_decision: the strict priority chain
circuit breaker, stop loss, take profit (the last two only with a
positive BTC position), swing entry, DCA, default HOLD. -/
def make_decision (config : Config) (portfolio : Portfolio)
    (technical : Technical) (sentiment : Sentiment) (prediction : Prediction)
    (current_price : ℚ) : Decision :=
  let rsi := technical.RSI.getD 50
  let atr := technical.ATR.getD 1000
  let macd_diff := technical.MACD_diff.getD 0
  let fg_score := sentiment.fear_greed_score.getD 50
  let rag_confidence := sentiment.rag_confidence.getD (1/2)
  let predicted_price := prediction.predicted_price.getD current_price
  let direction_confidence := prediction.direction_confidence.getD (1/2)
  match check_circuit_breaker config portfolio current_price with
  | some d => d
  | none =>
    match (if portfolio.btc > 0 then
            match check_stop_loss config portfolio current_price atr with
            | some d => some d
            | none =>
              check_take_profit config portfolio rsi macd_diff predicted_price current_price
           else none) with
    | some d => d
    | none =>
      match check_swing_entry config portfolio rsi macd_diff predicted_price
          current_price direction_confidence with
      | some d => d
      | none =>
        match check_dca_conditions config portfolio current_price rsi fg_score
            rag_confidence technical.SMA_50 technical.SMA_200 with
        | some d => d
        | none =>
          { action := .HOLD, amount := none, strategy := .HOLD, drawdown := none }

/-- TradingDecisionBox.execute_trade: apply a decision to the
portfolio.  A SELL that leaves at most the 0.0001 epsilon of BTC snaps
the position to zero and clears the entry price. -/
def execute_trade (portfolio : Portfolio) (decision : Decision)
    (current_price : ℚ) (date : ℤ) : Portfolio :=
  match decision.action with
  | .BUY =>
    let amount := decision.amount.getD 0
    let btc_bought := amount / current_price
    let p : Portfolio :=
      { portfolio with
        btc := portfolio.btc + btc_bought,
        cash := portfolio.cash - amount,
        entry_price := some current_price }
    let p := if decision.strategy = .DCA then
        { p with last_dca_price := some current_price } else p
    { p with trades := p.trades ++ [⟨date, .BUY, decision.strategy, current_price, amount⟩] }
  | .SELL =>
    let amount := decision.amount.getD 0
    let cash_received := amount * current_price
    let new_btc := portfolio.btc - amount
    let p : Portfolio :=
      if new_btc ≤ 1/10000 then
        { portfolio with
          cash := portfolio.cash + cash_received,
          btc := 0,
          entry_price := none }
      else
        { portfolio with
          cash := portfolio.cash + cash_received,
          btc := new_btc }
    { p with trades := p.trades ++ [⟨date, .SELL, decision.strategy, current_price, amount⟩] }
  | .PAUSE => portfolio
  | .HOLD => portfolio

/-- One observation fed to the decision box at one backtest step. -/
structure StepInput where
  technical : Technical
  sentiment : Sentiment
  prediction : Prediction
  price : ℚ
  date : ℤ
deriving DecidableEq

/-- One backtest step of the decision box: make a decision against the
current portfolio and execute it. -/
def decide_and_execute (config : Config) (portfolio : Portfolio)
    (inp : StepInput) : Portfolio :=
  execute_trade portfolio
    (make_decision config portfolio inp.technical inp.sentiment inp.prediction inp.price)
    inp.price inp.date

/-- Fold a sequence of observations through the decision box starting
from the initial portfolio. -/
def run_trades (config : Config) (inputs : List StepInput) : Portfolio :=
  inputs.foldl (decide_and_execute config) (initial_portfolio config)

/-- Reference configuration used by the repository test mains. -/
def config0 : Config :=
  { initial_capital := 10000, dca_amount := 100, swing_amount := 500,
    rsi_oversold := 30, rsi_overbought := 70, k_atr := 2,
    fear_threshold := 40, rag_threshold := 70/100,
    swing_confidence_threshold := none }

/-- Neutral feeds that trigger no strategy. -/
def technical_neutral : Technical :=
  { RSI := some 50, ATR := some 1000, MACD_diff := some 0,
    SMA_50 := none, SMA_200 := none }

def sentiment_neutral : Sentiment :=
  { fear_greed_score := some 50, rag_confidence := some (1/2) }

def prediction_neutral : Prediction :=
  { predicted_price := none, direction_confidence := some (1/2) }

example :
    (make_decision config0 (initial_portfolio config0) technical_neutral
      sentiment_neutral prediction_neutral 100).action = Action.HOLD := by
  norm_num [make_decision, check_circuit_breaker, check_stop_loss, check_take_profit,
    check_swing_entry, check_dca_conditions, initial_portfolio, config0,
    technical_neutral, sentiment_neutral, prediction_neutral, Option.getD]

/-! ### Characterisation lemmas for the five strategy checks -/

theorem check_circuit_breaker_of_not_lt {c : Config} {p : Portfolio} {price : ℚ}
    (h : ¬(p.cash + p.btc * price < 3/4 * c.initial_capital)) :
    check_circuit_breaker c p price = none := by
  simp only [check_circuit_breaker, if_neg h]

theorem check_circuit_breaker_of_lt {c : Config} {p : Portfolio} {price : ℚ}
    (h : p.cash + p.btc * price < 3/4 * c.initial_capital) :
    check_circuit_breaker c p price =
      some { action := .PAUSE, amount := none, strategy := .CIRCUIT_BREAKER,
             drawdown := some ((c.initial_capital - (p.cash + p.btc * price)) /
               c.initial_capital) } := by
  simp only [check_circuit_breaker, if_pos h]

theorem check_stop_loss_some {c : Config} {p : Portfolio} {price atr : ℚ} {d : Decision}
    (h : check_stop_loss c p price atr = some d) :
    d = { action := .SELL, amount := some p.btc, strategy := .STOP_LOSS,
          drawdown := none } := by
  unfold check_stop_loss at h
  cases he : p.entry_price with
  | none => rw [he] at h; cases h
  | some e =>
    rw [he] at h
    simp only [] at h
    by_cases hlt : price < e - c.k_atr * atr
    · rw [if_pos hlt] at h
      exact (Option.some.inj h).symm
    · rw [if_neg hlt] at h; cases h

theorem check_take_profit_some {c : Config} {p : Portfolio}
    {rsi macd_diff predicted_price price : ℚ} {d : Decision}
    (h : check_take_profit c p rsi macd_diff predicted_price price = some d) :
    d.action = .SELL ∧
      (d.amount = some p.btc ∨ d.amount = some (p.btc * (1/2))) ∧
      d.strategy = .TAKE_PROFIT ∧ 1/10000 < p.btc := by
  unfold check_take_profit at h
  by_cases h0 : p.btc ≤ 1/10000
  · rw [if_pos h0] at h; cases h
  · rw [if_neg h0] at h
    simp only [] at h
    split_ifs at h with h1 h2 h3
    all_goals try cases h
    all_goals exact ⟨rfl, by simp, rfl, not_le.mp h0⟩

theorem check_swing_entry_some {c : Config} {p : Portfolio}
    {rsi macd_diff predicted_price price conf : ℚ} {d : Decision}
    (h : check_swing_entry c p rsi macd_diff predicted_price price conf = some d) :
    d = { action := .BUY, amount := some c.swing_amount, strategy := .SWING,
          drawdown := none } ∧ c.swing_amount ≤ p.cash := by
  unfold check_swing_entry at h
  simp only [] at h
  split_ifs at h with h1 h2
  all_goals try cases h
  all_goals exact ⟨rfl, not_lt.mp h2⟩

theorem check_dca_conditions_some {c : Config} {p : Portfolio}
    {price rsi fg rag : ℚ} {s50 s200 : Option ℚ} {d : Decision}
    (h : check_dca_conditions c p price rsi fg rag s50 s200 = some d) :
    d = { action := .BUY, amount := some c.dca_amount, strategy := .DCA,
          drawdown := none } ∧ c.dca_amount ≤ p.cash := by
  unfold check_dca_conditions at h
  simp only [] at h
  split_ifs at h with h1 h2
  all_goals try cases h
  all_goals exact ⟨rfl, not_lt.mp h2⟩

theorem make_decision_action_ne_pause {c : Config} {p : Portfolio}
    {t : Technical} {s : Sentiment} {pr : Prediction} {price : ℚ}
    (hcb : ¬(p.cash + p.btc * price < 3/4 * c.initial_capital)) :
    (make_decision c p t s pr price).action ≠ .PAUSE := by
  unfold make_decision
  rw [check_circuit_breaker_of_not_lt hcb]
  simp only
  rcases hx : (if p.btc > 0 then
      match check_stop_loss c p price (t.ATR.getD 1000) with
      | some d => some d
      | none =>
        check_take_profit c p (t.RSI.getD 50) (t.MACD_diff.getD 0)
          (pr.predicted_price.getD price) price
    else none) with _ | d
  · simp only [hx]
    rcases hs : check_swing_entry c p (t.RSI.getD 50) (t.MACD_diff.getD 0)
        (pr.predicted_price.getD price) price (pr.direction_confidence.getD (1/2)) with _ | d
    · simp only [hs]
      rcases hd : check_dca_conditions c p price (t.RSI.getD 50)
          (s.fear_greed_score.getD 50) (s.rag_confidence.getD (1/2))
          t.SMA_50 t.SMA_200 with _ | d
      · simp only [hd]; intro hcon; cases hcon
      · simp only [hd]
        obtain ⟨rfl, -⟩ := check_dca_conditions_some hd
        intro hcon; cases hcon
    · simp only [hs]
      obtain ⟨rfl, -⟩ := check_swing_entry_some hs
      intro hcon; cases hcon
  · simp only [hx]
    by_cases hb : p.btc > 0
    · rw [if_pos hb] at hx
      rcases hsl : check_stop_loss c p price (t.ATR.getD 1000) with _ | d'
      · rw [hsl] at hx
        simp only at hx
        have htp := check_take_profit_some hx
        intro hcon; rw [hcon] at htp; cases htp.1
      · rw [hsl] at hx
        simp only at hx
        obtain rfl := Option.some.inj hx
        obtain rfl := check_stop_loss_some hsl
        intro hcon; cases hcon
    · rw [if_neg hb] at hx; cases hx

theorem check_circuit_breaker_some {c : Config} {p : Portfolio} {price : ℚ}
    {d : Decision} (h : check_circuit_breaker c p price = some d) :
    d = { action := .PAUSE, amount := none, strategy := .CIRCUIT_BREAKER,
          drawdown := some ((c.initial_capital - (p.cash + p.btc * price)) /
            c.initial_capital) } ∧
      p.cash + p.btc * price < 3/4 * c.initial_capital := by
  unfold check_circuit_breaker at h
  simp only [] at h
  split_ifs at h with h1
  all_goals try cases h
  exact ⟨rfl, h1⟩

/-- Exhaustive case analysis of make_decision: the returned decision is
the circuit-breaker PAUSE, the stop-loss full SELL, a take-profit SELL
of the whole or half position, the swing BUY of the swing notional, the
DCA BUY of the DCA notional, or the default HOLD, each with the side
condition its branch requires. -/
theorem make_decision_cases (c : Config) (p : Portfolio) (t : Technical)
    (s : Sentiment) (pr : Prediction) (price : ℚ) :
    (make_decision c p t s pr price =
        { action := .PAUSE, amount := none, strategy := .CIRCUIT_BREAKER,
          drawdown := some ((c.initial_capital - (p.cash + p.btc * price)) /
            c.initial_capital) } ∧
        p.cash + p.btc * price < 3/4 * c.initial_capital) ∨
    (make_decision c p t s pr price =
        { action := .SELL, amount := some p.btc, strategy := .STOP_LOSS,
          drawdown := none } ∧ 0 < p.btc) ∨
    ((make_decision c p t s pr price).action = .SELL ∧
      (make_decision c p t s pr price).strategy = .TAKE_PROFIT ∧
      ((make_decision c p t s pr price).amount = some p.btc ∨
        (make_decision c p t s pr price).amount = some (p.btc * (1/2))) ∧
      1/10000 < p.btc) ∨
    (make_decision c p t s pr price =
        { action := .BUY, amount := some c.swing_amount, strategy := .SWING,
          drawdown := none } ∧ c.swing_amount ≤ p.cash) ∨
    (make_decision c p t s pr price =
        { action := .BUY, amount := some c.dca_amount, strategy := .DCA,
          drawdown := none } ∧ c.dca_amount ≤ p.cash) ∨
    make_decision c p t s pr price =
        { action := .HOLD, amount := none, strategy := .HOLD, drawdown := none } := by
  unfold make_decision
  rcases hcb : check_circuit_breaker c p price with _ | d0
  · simp only [hcb]
    rcases hx : (if p.btc > 0 then
        match check_stop_loss c p price (t.ATR.getD 1000) with
        | some d => some d
        | none =>
          check_take_profit c p (t.RSI.getD 50) (t.MACD_diff.getD 0)
            (pr.predicted_price.getD price) price
      else none) with _ | d1
    · simp only [hx]
      rcases hsw : check_swing_entry c p (t.RSI.getD 50) (t.MACD_diff.getD 0)
          (pr.predicted_price.getD price) price
          (pr.direction_confidence.getD (1/2)) with _ | d3
      · simp only [hsw]
        rcases hdc : check_dca_conditions c p price (t.RSI.getD 50)
            (s.fear_greed_score.getD 50) (s.rag_confidence.getD (1/2))
            t.SMA_50 t.SMA_200 with _ | d4
        · simp only [hdc]
          exact Or.inr (Or.inr (Or.inr (Or.inr (Or.inr (by trivial)))))
        · simp only [hdc]
          obtain ⟨rfl, hle⟩ := check_dca_conditions_some hdc
          exact Or.inr (Or.inr (Or.inr (Or.inr (Or.inl ⟨rfl, hle⟩))))
      · simp only [hsw]
        obtain ⟨rfl, hle⟩ := check_swing_entry_some hsw
        exact Or.inr (Or.inr (Or.inr (Or.inl ⟨rfl, hle⟩)))
    · simp only [hx]
      by_cases hb : p.btc > 0
      · rw [if_pos hb] at hx
        rcases hsl : check_stop_loss c p price (t.ATR.getD 1000) with _ | d1'
        · rw [hsl] at hx
          simp only at hx
          obtain ⟨ha, ham, hst, hbig⟩ := check_take_profit_some hx
          exact Or.inr (Or.inr (Or.inl ⟨ha, hst, ham, hbig⟩))
        · rw [hsl] at hx
          simp only at hx
          obtain rfl := Option.some.inj hx
          obtain rfl := check_stop_loss_some hsl
          exact Or.inr (Or.inl ⟨rfl, hb⟩)
      · rw [if_neg hb] at hx; cases hx
  · simp only [hcb]
    obtain ⟨rfl, hlt⟩ := check_circuit_breaker_some hcb
    exact Or.inl ⟨rfl, hlt⟩

/-- Claim C2: strict priority of stop-loss over swing entry.  When the
circuit breaker does not fire, the position is open with a recorded
entry price, the stop-loss trigger holds, and all four swing-entry
conditions hold simultaneously, make_decision returns the stop-loss
SELL of the entire position, never a swing BUY and never a
combination. -/
theorem claim_C2_stop_loss_beats_swing
    (c : Config) (p : Portfolio) (t : Technical) (s : Sentiment) (pr : Prediction)
    (price entry atr : ℚ)
    (hbtc : 0 < p.btc)
    (hentry : p.entry_price = some entry)
    (hatr : t.ATR = some atr)
    (hstop : price < entry - c.k_atr * atr)
    (hrsi : t.RSI.getD 50 < c.rsi_oversold)
    (hmacd : 0 < t.MACD_diff.getD 0)
    (hpred : pr.predicted_price.getD price > price * (103/100))
    (hconf : pr.direction_confidence.getD (1/2) >
      c.swing_confidence_threshold.getD (70/100))
    (hnocb : ¬(p.cash + p.btc * price < 3/4 * c.initial_capital)) :
    make_decision c p t s pr price =
      { action := .SELL, amount := some p.btc, strategy := .STOP_LOSS,
        drawdown := none } := by
  unfold make_decision
  rw [check_circuit_breaker_of_not_lt hnocb]
  have hsl : check_stop_loss c p price (t.ATR.getD 1000) =
      some { action := .SELL, amount := some p.btc, strategy := .STOP_LOSS,
             drawdown := none } := by
    unfold check_stop_loss
    rw [hentry, hatr]
    simp only [Option.getD_some]
    rw [if_pos hstop]
  simp only [if_pos hbtc, hsl]

/-- Witness for claim C2: the end-to-end scenario of the spec (entry
100000, position 0.05, ATR 1500, k_atr 2, price 96500) combined with
inputs satisfying all four swing conditions still yields the stop-loss
SELL of the full position. -/
theorem claim_C2_witness :
    make_decision config0
      { cash := 9000, btc := 5/100, entry_price := some 100000,
        last_dca_price := none, trades := [] }
      { RSI := some 28, ATR := some 1500, MACD_diff := some 10,
        SMA_50 := none, SMA_200 := none }
      sentiment_neutral
      { predicted_price := some 110000, direction_confidence := some (8/10) }
      96500 =
      { action := .SELL, amount := some (5/100), strategy := .STOP_LOSS,
        drawdown := none } := by
  exact claim_C2_stop_loss_beats_swing config0 _ _ _ _ 96500 100000 1500
    (by norm_num)
    (by norm_num)
    (by norm_num)
    (by norm_num [config0])
    (by norm_num [config0])
    (by norm_num)
    (by norm_num)
    (by norm_num [config0])
    (by norm_num [config0])

/-- Claim C3: the circuit-breaker threshold is strict.  make_decision
returns PAUSE exactly when cash + position * current_price is strictly
below 0.75 of the initial capital, the PAUSE decision carries the
realized drawdown fraction, a portfolio at exactly 75.0 percent of a
10000 initial capital yields no PAUSE, and one at 74.999 percent
yields PAUSE. -/
theorem claim_C3_circuit_breaker_strict_threshold :
    (∀ (c : Config) (p : Portfolio) (t : Technical) (s : Sentiment)
        (pr : Prediction) (price : ℚ),
      (make_decision c p t s pr price).action = .PAUSE ↔
        p.cash + p.btc * price < 3/4 * c.initial_capital) ∧
    (∀ (c : Config) (p : Portfolio) (t : Technical) (s : Sentiment)
        (pr : Prediction) (price : ℚ),
      p.cash + p.btc * price < 3/4 * c.initial_capital →
      (make_decision c p t s pr price).drawdown =
        some ((c.initial_capital - (p.cash + p.btc * price)) / c.initial_capital)) ∧
    (make_decision config0 ⟨7500, 0, none, none, []⟩ technical_neutral
      sentiment_neutral prediction_neutral 100).action ≠ .PAUSE ∧
    (make_decision config0 ⟨74999/10, 0, none, none, []⟩ technical_neutral
      sentiment_neutral prediction_neutral 100).action = .PAUSE := by
  have hpause : ∀ (c : Config) (p : Portfolio) (t : Technical) (s : Sentiment)
      (pr : Prediction) (price : ℚ),
      p.cash + p.btc * price < 3/4 * c.initial_capital →
      make_decision c p t s pr price =
        { action := .PAUSE, amount := none, strategy := .CIRCUIT_BREAKER,
          drawdown := some ((c.initial_capital - (p.cash + p.btc * price)) /
            c.initial_capital) } := by
    intro c p t s pr price h
    unfold make_decision
    rw [check_circuit_breaker_of_lt h]
  refine ⟨?_, ?_, ?_, ?_⟩
  · intro c p t s pr price
    constructor
    · intro h
      by_contra hno
      exact make_decision_action_ne_pause hno h
    · intro h
      rw [hpause c p t s pr price h]
  · intro c p t s pr price h
    rw [hpause c p t s pr price h]
  · apply make_decision_action_ne_pause
    norm_num [config0]
  · rw [hpause]
    norm_num [config0]

/-- Witness for claim C3: the iff applied at a concrete portfolio 30
percent below the threshold. -/
theorem claim_C3_witness :
    (make_decision config0 ⟨7000, 0, none, none, []⟩ technical_neutral
      sentiment_neutral prediction_neutral 100).action = .PAUSE :=
  (claim_C3_circuit_breaker_strict_threshold.1 config0
    ⟨7000, 0, none, none, []⟩ technical_neutral sentiment_neutral
    prediction_neutral 100).mpr (by norm_num [config0])

/-- Claim C10: the decision is independent of the moving averages.
Two technical inputs that agree on RSI, ATR and MACD_diff but differ
arbitrarily in SMA_50 and SMA_200 produce the same decision, and the
DCA check itself ignores its sma_50 and sma_200 parameters, so the
death-cross trend filter described in the DCA docstring is never
applied. -/
theorem claim_C10_sma_independence :
    (∀ (c : Config) (p : Portfolio) (s : Sentiment) (pr : Prediction)
        (price : ℚ) (t1 t2 : Technical),
      t1.RSI = t2.RSI → t1.ATR = t2.ATR → t1.MACD_diff = t2.MACD_diff →
      make_decision c p t1 s pr price = make_decision c p t2 s pr price) ∧
    (∀ (c : Config) (p : Portfolio) (price rsi fg rag : ℚ)
        (s50 s200 s50' s200' : Option ℚ),
      check_dca_conditions c p price rsi fg rag s50 s200 =
        check_dca_conditions c p price rsi fg rag s50' s200') := by
  constructor
  · rintro c p s pr price ⟨r1, a1, m1, x1, y1⟩ ⟨r2, a2, m2, x2, y2⟩ h1 h2 h3
    simp only at h1 h2 h3
    subst h1; subst h2; subst h3
    rfl
  · intro c p price rsi fg rag s50 s200 s50' s200'
    rfl

/-- Witness for claim C10: two concrete technical snapshots, one with a
death cross (SMA_50 far below SMA_200) and one with a golden cross,
yield the same decision. -/
theorem claim_C10_witness :
    make_decision config0 (initial_portfolio config0)
      { RSI := some 25, ATR := some 1000, MACD_diff := some 0,
        SMA_50 := some 50000, SMA_200 := some 100000 }
      sentiment_neutral prediction_neutral 100 =
    make_decision config0 (initial_portfolio config0)
      { RSI := some 25, ATR := some 1000, MACD_diff := some 0,
        SMA_50 := some 100000, SMA_200 := some 50000 }
      sentiment_neutral prediction_neutral 100 :=
  claim_C10_sma_independence.1 config0 (initial_portfolio config0)
    sentiment_neutral prediction_neutral 100 _ _ rfl rfl rfl

/-- Claim C8: swing entry is suppressed, not partially filled, on
insufficient cash.  When all four swing-entry conditions hold but cash
is below the swing notional, the decision is never a swing BUY;
moreover any BUY that is returned is the DCA rule's BUY at the full
DCA notional, and with no open position and no circuit breaker the
decision is exactly the DCA BUY or HOLD. -/
theorem claim_C8_swing_suppressed_on_insufficient_cash
    (c : Config) (p : Portfolio) (t : Technical) (s : Sentiment)
    (pr : Prediction) (price : ℚ)
    (hrsi : t.RSI.getD 50 < c.rsi_oversold)
    (hmacd : 0 < t.MACD_diff.getD 0)
    (hpred : pr.predicted_price.getD price > price * (103/100))
    (hconf : pr.direction_confidence.getD (1/2) >
      c.swing_confidence_threshold.getD (70/100))
    (hcash : p.cash < c.swing_amount) :
    (make_decision c p t s pr price).strategy ≠ .SWING ∧
    ((make_decision c p t s pr price).action = .BUY →
      (make_decision c p t s pr price).strategy = .DCA ∧
      (make_decision c p t s pr price).amount = some c.dca_amount) ∧
    (p.btc = 0 → ¬(p.cash + p.btc * price < 3/4 * c.initial_capital) →
      make_decision c p t s pr price =
        { action := .BUY, amount := some c.dca_amount, strategy := .DCA,
          drawdown := none } ∨
      make_decision c p t s pr price =
        { action := .HOLD, amount := none, strategy := .HOLD, drawdown := none }) := by
  rcases make_decision_cases c p t s pr price with
      ⟨heq, hlt⟩ | ⟨heq, hbtc⟩ | ⟨ha, hst, ham, hbtc⟩ | ⟨heq, hle⟩ | ⟨heq, hle⟩ | heq
  · refine ⟨by rw [heq]; simp, by rw [heq]; simp, ?_⟩
    intro _ hno
    exact absurd hlt hno
  · refine ⟨by rw [heq]; simp, by rw [heq]; simp, ?_⟩
    intro h0 _
    rw [h0] at hbtc
    exact absurd hbtc (lt_irrefl 0)
  · refine ⟨by rw [hst]; simp, by rw [ha]; simp, ?_⟩
    intro h0 _
    rw [h0] at hbtc
    exact absurd hbtc (by norm_num)
  · exact absurd hle (not_le.mpr hcash)
  · refine ⟨by rw [heq]; simp, by rw [heq]; simp, ?_⟩
    intro _ _
    exact Or.inl heq
  · refine ⟨by rw [heq]; simp, by rw [heq]; simp, ?_⟩
    intro _ _
    exact Or.inr heq

/-- Witness for claim C8: all four swing conditions hold but cash 300
is below the swing notional 500, so with no position and no breaker
the decision is the DCA BUY of 100 or HOLD (here: the DCA BUY). -/
theorem claim_C8_witness :
    (make_decision config0
      { cash := 300, btc := 0, entry_price := none, last_dca_price := none,
        trades := [] }
      { RSI := some 20, ATR := some 1000, MACD_diff := some 5,
        SMA_50 := none, SMA_200 := none }
      sentiment_neutral
      { predicted_price := some 110, direction_confidence := some (9/10) }
      100).strategy ≠ Strategy.SWING :=
  (claim_C8_swing_suppressed_on_insufficient_cash config0 _ _ _ _ 100
    (by norm_num [config0])
    (by norm_num)
    (by norm_num)
    (by norm_num [config0])
    (by norm_num [config0])).1

/-! ### Portfolio invariant (claim C4) -/

/-- The portfolio invariant of the data model, strengthened with
non-negativity of the position, which the preservation argument
needs. -/
def PortfolioInv (p : Portfolio) : Prop :=
  (p.btc = 0 ↔ p.entry_price = none) ∧ 0 ≤ p.cash ∧ 0 ≤ p.btc

theorem portfolio_inv_initial (c : Config) (h : 0 ≤ c.initial_capital) :
    PortfolioInv (initial_portfolio c) := by
  refine ⟨by simp [initial_portfolio], by simpa [initial_portfolio] using h,
    by simp [initial_portfolio]⟩

theorem portfolio_inv_step (c : Config) (p : Portfolio) (inp : StepInput)
    (hd : 0 < c.dca_amount) (hs : 0 < c.swing_amount)
    (hprice : 0 < inp.price) (hinv : PortfolioInv p) :
    PortfolioInv (decide_and_execute c p inp) := by
  obtain ⟨hiff, hcash, hbtc0⟩ := hinv
  unfold decide_and_execute
  rcases make_decision_cases c p inp.technical inp.sentiment inp.prediction inp.price with
      ⟨heq, hlt⟩ | ⟨heq, hbtc⟩ | ⟨ha, hst, ham, hbtc⟩ | ⟨heq, hle⟩ | ⟨heq, hle⟩ | heq
  · rw [heq]
    simpa [execute_trade, PortfolioInv] using ⟨hiff, hcash, hbtc0⟩
  · rw [heq]
    simp only [execute_trade, Option.getD_some]
    rw [if_pos (by simp : p.btc - p.btc ≤ (1:ℚ)/10000)]
    exact ⟨by simp, by
      simp only
      exact add_nonneg hcash (mul_nonneg hbtc0 hprice.le), by simp⟩
  · set d := make_decision c p inp.technical inp.sentiment inp.prediction inp.price with hdd
    have hentry : p.entry_price ≠ none := by
      intro hnone
      have : p.btc = 0 := hiff.mpr hnone
      rw [this] at hbtc
      exact absurd hbtc (by norm_num)
    rcases ham with ham | ham
    · simp only [execute_trade, ha, ham, Option.getD_some]
      rw [if_pos (by simp : p.btc - p.btc ≤ (1:ℚ)/10000)]
      exact ⟨by simp, by
        simp only
        exact add_nonneg hcash (mul_nonneg hbtc0 hprice.le), by simp⟩
    · simp only [execute_trade, ha, ham, Option.getD_some]
      by_cases hsnap : p.btc - p.btc * (1/2) ≤ 1/10000
      · rw [if_pos hsnap]
        refine ⟨by simp, ?_, by simp⟩
        simp only
        exact add_nonneg hcash (mul_nonneg (mul_nonneg hbtc0 (by norm_num)) hprice.le)
      · rw [if_neg hsnap]
        have hpos : 0 < p.btc - p.btc * (1/2) := by
          by_contra hle2
          exact hsnap (le_trans (not_lt.mp hle2) (by norm_num))
        refine ⟨?_, ?_, ?_⟩
        · simp only
          constructor
          · intro h0
            rw [h0] at hpos
            exact absurd hpos (lt_irrefl 0)
          · intro hn
            exact absurd hn hentry
        · simp only
          exact add_nonneg hcash (mul_nonneg (mul_nonneg hbtc0 (by norm_num)) hprice.le)
        · simp only
          exact hpos.le
  · rw [heq]
    simp only [execute_trade, Option.getD_some]
    rw [if_neg (by simp : ¬(Strategy.SWING = Strategy.DCA))]
    have hq : 0 < c.swing_amount / inp.price := div_pos hs hprice
    refine ⟨?_, ?_, ?_⟩
    · simp only
      constructor
      · intro h0
        have : (0:ℚ) < p.btc + c.swing_amount / inp.price :=
          add_pos_of_nonneg_of_pos hbtc0 hq
        rw [h0] at this
        exact absurd this (lt_irrefl 0)
      · intro hn; cases hn
    · simp only
      exact sub_nonneg.mpr hle
    · simp only
      exact (add_pos_of_nonneg_of_pos hbtc0 hq).le
  · rw [heq]
    simp only [execute_trade, Option.getD_some]
    simp only [if_true]
    have hq : 0 < c.dca_amount / inp.price := div_pos hd hprice
    refine ⟨?_, ?_, ?_⟩
    · simp only
      constructor
      · intro h0
        have : (0:ℚ) < p.btc + c.dca_amount / inp.price :=
          add_pos_of_nonneg_of_pos hbtc0 hq
        rw [h0] at this
        exact absurd this (lt_irrefl 0)
      · intro hn; cases hn
    · simp only
      exact sub_nonneg.mpr hle
    · simp only
      exact (add_pos_of_nonneg_of_pos hbtc0 hq).le
  · rw [heq]
    simpa [execute_trade, PortfolioInv] using ⟨hiff, hcash, hbtc0⟩

theorem portfolio_inv_foldl (c : Config) (hd : 0 < c.dca_amount)
    (hs : 0 < c.swing_amount) :
    ∀ (inputs : List StepInput) (p : Portfolio),
      PortfolioInv p → (∀ inp ∈ inputs, 0 < inp.price) →
      PortfolioInv (inputs.foldl (decide_and_execute c) p) := by
  intro inputs
  induction inputs with
  | nil => intro p hp _; exact hp
  | cons a l ih =>
    intro p hp hall
    simp only [List.foldl_cons]
    exact ih _ (portfolio_inv_step c p a hd hs (hall a (by simp)) hp)
      (fun inp hmem => hall inp (by simp [hmem]))

/-- Claim C4: the portfolio invariant is preserved by every executed
trade.  Starting from the initial portfolio (position 0, entry price
absent, cash equal to the initial capital), after any sequence of steps
in which each decision produced by make_decision is applied by
execute_trade at a positive price, the position is 0 exactly when the
entry price is absent, and cash never becomes negative. -/
theorem claim_C4_portfolio_invariant (c : Config) (inputs : List StepInput)
    (hinit : 0 ≤ c.initial_capital) (hd : 0 < c.dca_amount)
    (hs : 0 < c.swing_amount) (hp : ∀ inp ∈ inputs, 0 < inp.price) :
    ((run_trades c inputs).btc = 0 ↔ (run_trades c inputs).entry_price = none) ∧
      0 ≤ (run_trades c inputs).cash := by
  have h := portfolio_inv_foldl c hd hs inputs (initial_portfolio c)
    (portfolio_inv_initial c hinit) hp
  exact ⟨h.1, h.2.1⟩

/-- Concrete two-step input sequence for the claim C4 witness: step one
fires a DCA buy at price 100, step two crashes to price 50 and fires
the stop-loss sell. -/
def c4_inputs : List StepInput :=
  [ { technical :=
        { RSI := some 20, ATR := some 10, MACD_diff := some 0,
          SMA_50 := none, SMA_200 := none },
      sentiment := sentiment_neutral, prediction := prediction_neutral,
      price := 100, date := 1 },
    { technical :=
        { RSI := some 50, ATR := some 10, MACD_diff := some 0,
          SMA_50 := none, SMA_200 := none },
      sentiment := sentiment_neutral, prediction := prediction_neutral,
      price := 50, date := 2 } ]

/-- Witness for claim C4: the invariant theorem applied to the concrete
two-step buy-then-stop-loss sequence. -/
theorem claim_C4_witness :
    ((run_trades config0 c4_inputs).btc = 0 ↔
      (run_trades config0 c4_inputs).entry_price = none) ∧
    0 ≤ (run_trades config0 c4_inputs).cash :=
  claim_C4_portfolio_invariant config0 c4_inputs
    (by norm_num [config0]) (by norm_num [config0]) (by norm_num [config0])
    (by
      intro inp hmem
      simp only [c4_inputs, List.mem_cons, List.mem_singleton] at hmem
      rcases hmem with rfl | rfl | h
      · norm_num
      · norm_num
      · cases h)

/-! ### Performance metrics: win rate (claim C6) -/

/-- Count of strictly positive returns, the generator-sum inside
calculate_win_rate of metrics.py. -/
def winning_trades : List ℚ → ℕ
  | [] => 0
  | r :: rest => (if 0 < r then 1 else 0) + winning_trades rest

/-- metrics.py calculate_win_rate: fraction of strictly positive trade
returns, 0 for an empty list. -/
def calculate_win_rate (trade_returns : List ℚ) : ℚ :=
  if trade_returns.length = 0 then 0
  else (winning_trades trade_returns : ℚ) / trade_returns.length

/-- The buy-sell pairing loop of BacktestEngine.calculate_metrics: a
single pending buy price is overwritten by every BUY and cleared after
every pairing, each SELL pairs with the pending price when one exists. -/
def buy_sell_pairs : List Trade → Option ℚ → List ℚ
  | [], _ => []
  | t :: rest, last_buy =>
    if t.action = .BUY then
      buy_sell_pairs rest (some t.price)
    else if t.action = .SELL then
      match last_buy with
      | some b => ((t.price - b) / b) :: buy_sell_pairs rest none
      | none => buy_sell_pairs rest last_buy
    else
      buy_sell_pairs rest last_buy

/-- Inline win-rate computation of BacktestEngine.calculate_metrics
over the completed buy-sell pairs. -/
def engine_win_rate (trades : List Trade) : ℚ :=
  let pairs := buy_sell_pairs trades none
  if pairs ≠ [] then (winning_trades pairs : ℚ) / pairs.length else 0

/-- Inline average-trade-return computation of
BacktestEngine.calculate_metrics. -/
def engine_avg_trade_return (trades : List Trade) : ℚ :=
  let pairs := buy_sell_pairs trades none
  if pairs ≠ [] then pairs.sum / pairs.length else 0

/-- The literal trade-return list of the spec's metrics scenario. -/
def literal_trade_returns : List ℚ :=
  [5/100, -2/100, 3/100, 8/100, -1/100, 4/100, -3/100, 6/100]

/-- Sequence of trades with two consecutive BUYs followed by two SELLs,
on which the engine pairing and a most-recent-unmatched pairing
differ. -/
def two_buys_two_sells : List Trade :=
  [ ⟨1, .BUY, .DCA, 10, 100⟩, ⟨2, .BUY, .DCA, 20, 100⟩,
    ⟨3, .SELL, .STOP_LOSS, 15, 1⟩, ⟨4, .SELL, .STOP_LOSS, 25, 1⟩ ]

/-- Pairing that matches each SELL with the most recent still-unmatched
preceding BUY, kept on a stack.  Modelled from the spec sentence
describing the win-rate pairing; used only to compare against the
engine's pairing. -/
def spec_pairs : List Trade → List ℚ → List ℚ
  | [], _ => []
  | t :: rest, stack =>
    if t.action = .BUY then
      spec_pairs rest (t.price :: stack)
    else if t.action = .SELL then
      match stack with
      | b :: s => ((t.price - b) / b) :: spec_pairs rest s
      | [] => spec_pairs rest []
    else
      spec_pairs rest stack

/-- Claim C6 counterexample: on the literal trade-return list the win
rate computed by the code is 5/8 = 0.625, not the claimed 6/8 = 0.75
(only five of the eight returns are positive); moreover on two
consecutive BUYs followed by two SELLs the engine pairing produces one
pair while the most-recent-unmatched pairing of the claim produces
two, because the engine drops the overwritten BUY. -/
theorem claim_C6_counterexample :
    calculate_win_rate literal_trade_returns = 5/8 ∧ ((5:ℚ)/8 ≠ 3/4) ∧
    buy_sell_pairs two_buys_two_sells none = [(15 - 20) / 20] ∧
    spec_pairs two_buys_two_sells [] = [(15 - 20) / 20, (25 - 10) / 10] := by
  refine ⟨?_, by norm_num, ?_, ?_⟩
  · norm_num [calculate_win_rate, winning_trades, literal_trade_returns]
  · rfl
  · rfl

/-- Claim C6 as amended: the reported win rate pairs each SELL with the
single pending BUY price, which every BUY overwrites and every pairing
clears (so a BUY followed by a second BUY is dropped, and a SELL with
no pending BUY is unpaired); a pair wins exactly when sell price
exceeds buy price (for a positive buy price); the engine's inline win
rate agrees with metrics.py calculate_win_rate on the pair returns,
which is wins divided by completed pairs and 0 without pairs; and on
the literal trade-return list the win rate is 5/8 = 0.625. -/
theorem claim_C6_amended :
    (∀ trades : List Trade,
      engine_win_rate trades = calculate_win_rate (buy_sell_pairs trades none)) ∧
    (∀ b s : ℚ, 0 < b → (0 < (s - b) / b ↔ b < s)) ∧
    calculate_win_rate [] = 0 ∧
    calculate_win_rate literal_trade_returns = 5/8 := by
  refine ⟨?_, ?_, by norm_num [calculate_win_rate], ?_⟩
  · intro trades
    unfold engine_win_rate calculate_win_rate
    by_cases hnil : buy_sell_pairs trades none = []
    · simp [hnil]
    · rw [if_pos hnil, if_neg (by simpa [List.length_eq_zero] using hnil)]
  · intro b s hb
    rw [div_pos_iff]
    constructor
    · rintro (⟨h1, -⟩ | ⟨-, h2⟩)
      · linarith
      · linarith
    · intro h
      exact Or.inl ⟨by linarith, hb⟩
  · norm_num [calculate_win_rate, winning_trades, literal_trade_returns]

/-- Witness for claim C6 as amended: the win condition applied at buy
price 10 and sell price 15. -/
theorem claim_C6_witness :
    (0 < ((15 - 10) / 10 : ℚ) ↔ (10:ℚ) < 15) :=
  claim_C6_amended.2.1 10 15 (by norm_num)

/-! ### Performance metrics: Sharpe ratio over the reals (claim C7) -/

/-- pandas pct_change followed by dropna: one percentage return per
adjacent pair of recorded values. -/
noncomputable def pct_change (values : List ℝ) : List ℝ :=
  (values.zip values.tail).map (fun pq => (pq.2 - pq.1) / pq.1)

/-- Mean of a series, as numpy computes it. -/
noncomputable def series_mean (xs : List ℝ) : ℝ := xs.sum / xs.length

/-- Sample variance with one delta degree of freedom, as pandas std
squares it. -/
noncomputable def series_var (xs : List ℝ) : ℝ :=
  ((xs.map (fun x => (x - series_mean xs)^2)).sum) / (xs.length - 1)

/-- pandas Series.std: sample standard deviation, NaN (modelled none)
for fewer than two observations. -/
noncomputable def series_std (xs : List ℝ) : Option ℝ :=
  if 2 ≤ xs.length then some (Real.sqrt (series_var xs)) else none

/-- The risk-free rate of the engine's inline Sharpe computation: the
engine subtracts nothing from the annualized mean, so its risk-free
rate is 0. -/
noncomputable def engine_risk_free_rate : ℝ := 0

/-- The inline Sharpe computation of BacktestEngine.calculate_metrics:
mean over std of the per-step percentage returns of the recorded
portfolio values, annualized by the square root of 252; 0 whenever the
return series is empty or its standard deviation fails the strict
positivity test (which a NaN standard deviation also fails). -/
noncomputable def sharpe_of_values (values : List ℝ) : ℝ :=
  let returns := pct_change values
  match series_std returns with
  | none => 0
  | some s =>
    if 0 < returns.length ∧ 0 < s then
      series_mean returns / s * Real.sqrt 252
    else 0

/-! ### Backtest engine embedding

The engine loop is embedded for the execution path in which model
training has failed, so every prediction is the neutral fallback
(predicted price = current price, direction FLAT, confidence 0.5) and
the retrain schedule has no effect; the technical-indicator feed is a
parameter returning none when get_latest_indicators raises (the loop
then skips the step).  This matches BacktestEngine.run on that path.
-/

/-- One row of the historical price DataFrame. -/
structure Row where
  date : ℤ
  price : ℚ
deriving DecidableEq

/-- One record of the cached historical fear-greed data. -/
structure FGRec where
  timestamp : ℤ
  value : ℤ
deriving DecidableEq

/-- The anti-future-data filter of module1_technical.calculate_indicators:
rows dated at or before the cutoff plus a one-second buffer.  These are
exactly the rows every indicator column is computed from. -/
def indicator_rows (df : List Row) (current_date : ℤ) : List Row :=
  df.filter (fun r => decide (r.date ≤ current_date + 1))

/-- Fold selecting the first record minimizing the absolute distance to
the cutoff, as pandas idxmin keeps the first minimizer. -/
def fg_closest_aux (current_date : ℤ) : List FGRec → Option FGRec → Option FGRec
  | [], best => best
  | r :: rest, best =>
    match best with
    | none => fg_closest_aux current_date rest (some r)
    | some b =>
      if |r.timestamp - current_date| < |b.timestamp - current_date| then
        fg_closest_aux current_date rest (some r)
      else
        fg_closest_aux current_date rest (some b)

/-- The fear-greed lookup of BacktestEngine._get_sentiment_backtest:
mask the cached records to one day either side of the current date,
then take the closest match. -/
def fg_lookup (data : List FGRec) (current_date : ℤ) : Option FGRec :=
  let masked := data.filter (fun r =>
    decide (current_date - 86400 ≤ r.timestamp) &&
    decide (r.timestamp ≤ current_date + 86400))
  fg_closest_aux current_date masked none

/-- BacktestEngine._get_sentiment_backtest: real historical fear-greed
value when cached data has a match within one day, otherwise the RSI
proxy; RAG confidence from RSI bands. -/
def get_sentiment_backtest (fear_greed_data : Option (List FGRec))
    (technical : Technical) (current_date : ℤ) : Sentiment :=
  let rsi := technical.RSI.getD 50
  let fg_from_data : Option ℚ :=
    match fear_greed_data with
    | none => none
    | some data =>
      match fg_lookup data current_date with
      | some rec => some (rec.value : ℚ)
      | none => none
  let fg_score : ℚ :=
    match fg_from_data with
    | some v => v
    | none =>
      if rsi < 30 then 20
      else if rsi < 40 then 35
      else if rsi > 70 then 80
      else if rsi > 60 then 65
      else 50
  let rag_confidence : ℚ :=
    if rsi < 35 then 75/100
    else if rsi > 65 then 40/100
    else 60/100
  { fear_greed_score := some fg_score, rag_confidence := some rag_confidence }

/-- SentimentAnalyzer.calculate_fg_confidence_multiplier of module 2. -/
def calculate_fg_confidence_multiplier (fg_score : ℚ) : ℚ :=
  if fg_score < 25 then 12/10
  else if fg_score < 40 then 11/10
  else if fg_score ≤ 60 then 1
  else if fg_score ≤ 75 then 9/10
  else 7/10

/-- One entry of the engine's prediction_history. -/
structure PredRec where
  date : ℤ
  predicted_price : ℚ
  direction : Direction
  direction_confidence : ℚ
  actual_price : ℚ
  rsi : ℚ
  macd_diff : ℚ
  fear_greed : ℚ
deriving DecidableEq

/-- One entry of the engine's signal_history. -/
structure SignalRec where
  date : ℤ
  action : Action
  strategy : Strategy
  rsi : ℚ
  macd_diff : ℚ
  fear_greed : ℚ
  entry_price : Option ℚ
  exit_price : Option ℚ
deriving DecidableEq

/-- One entry of the engine's portfolio_history. -/
structure PortRec where
  date : ℤ
  value : ℚ
  cash : ℚ
  btc : ℚ
  price : ℚ
deriving DecidableEq

/-- The engine's mutable per-run state: decision-box portfolio, the
three recorded histories, whether the loop exited early on the
circuit-breaker PAUSE, and how many loop iterations were entered. -/
structure LoopState where
  portfolio : Portfolio
  prediction_history : List PredRec
  signal_history : List SignalRec
  portfolio_history : List PortRec
  broke_early : Bool
  steps_seen : ℕ
deriving DecidableEq

/-- The date slice of BacktestEngine.run: rows between start and end
inclusive, in the order they appear in the DataFrame. -/
def test_dates (df : List Row) (start_date end_date : ℤ) : List ℤ :=
  (df.filter (fun r =>
    decide (start_date ≤ r.date) && decide (r.date ≤ end_date))).map (fun r => r.date)

/-- Price at a date: the first row carrying that date, as the source's
values[0] indexing takes it.  The none branch cannot occur for dates
drawn from the frame itself. -/
def lookup_price (df : List Row) (d : ℤ) : ℚ :=
  match df.find? (fun r => decide (r.date = d)) with
  | some r => r.price
  | none => 0

/-- State at the start of BacktestEngine.run. -/
def initial_state (config : Config) : LoopState :=
  { portfolio := initial_portfolio config, prediction_history := [],
    signal_history := [], portfolio_history := [], broke_early := false,
    steps_seen := 0 }

/-- The day-by-day loop of BacktestEngine.run on the fallback-prediction
path.  Per step: look up the price, query the technical feed (skipping
the step entirely when it fails), build the backtest sentiment, build
the fallback prediction and apply the fear-greed confidence multiplier
(the source reads the missing dict key value with default 50, so the
multiplier is the neutral 1.0), ask the decision box, and either break
on PAUSE or execute the trade and record the three history entries. -/
def run_loop (df : List Row) (config : Config)
    (technical_feed : ℤ → Option Technical)
    (fear_greed_data : Option (List FGRec)) :
    List ℤ → LoopState → LoopState
  | [], st => st
  | current_date :: rest, st =>
    let st1 : LoopState := { st with steps_seen := st.steps_seen + 1 }
    let current_price := lookup_price df current_date
    match technical_feed current_date with
    | none => run_loop df config technical_feed fear_greed_data rest st1
    | some technical =>
      let sentiment := get_sentiment_backtest fear_greed_data technical current_date
      let fg_multiplier := calculate_fg_confidence_multiplier 50
      let adjusted_confidence := min 1 ((1/2) * fg_multiplier)
      let prediction : Prediction :=
        { predicted_price := some current_price,
          direction_confidence := some adjusted_confidence,
          direction := some .FLAT }
      let decision := make_decision config st1.portfolio technical sentiment
        prediction current_price
      if decision.action = .PAUSE then
        { st1 with broke_early := true }
      else
        let portfolio := execute_trade st1.portfolio decision current_price current_date
        let rsi := technical.RSI.getD 50
        let macd := technical.MACD_diff.getD 0
        let fgv := sentiment.fear_greed_score.getD 50
        let st2 : LoopState :=
          { st1 with
            portfolio := portfolio,
            prediction_history := st1.prediction_history ++
              [{ date := current_date, predicted_price := current_price,
                 direction := .FLAT, direction_confidence := adjusted_confidence,
                 actual_price := current_price, rsi := rsi, macd_diff := macd,
                 fear_greed := fgv }],
            signal_history := st1.signal_history ++
              [{ date := current_date, action := decision.action,
                 strategy := decision.strategy, rsi := rsi, macd_diff := macd,
                 fear_greed := fgv,
                 entry_price := if decision.action = .BUY then some current_price else none,
                 exit_price := if decision.action = .SELL then some current_price else none }],
            portfolio_history := st1.portfolio_history ++
              [{ date := current_date,
                 value := portfolio.cash + portfolio.btc * current_price,
                 cash := portfolio.cash, btc := portfolio.btc,
                 price := current_price }] }
        run_loop df config technical_feed fear_greed_data rest st2

/-- Full loop from the initial state over the sliced date range. -/
def run_full (df : List Row) (config : Config)
    (technical_feed : ℤ → Option Technical)
    (fear_greed_data : Option (List FGRec))
    (start_date end_date : ℤ) : LoopState :=
  run_loop df config technical_feed fear_greed_data
    (test_dates df start_date end_date) (initial_state config)

/-! ### calculate_metrics embedding -/

/-- Running maximum continuation given the maximum so far. -/
def cummax_aux : List ℚ → ℚ → List ℚ
  | [], _ => []
  | v :: rest, m => max m v :: cummax_aux rest (max m v)

/-- pandas Series.cummax. -/
def cummax_list : List ℚ → List ℚ
  | [] => []
  | v :: rest => v :: cummax_aux rest v

/-- pandas Series.min; 0 for an empty series (the engine only reaches
it with a nonempty history). -/
def list_min : List ℚ → ℚ
  | [] => 0
  | v :: rest => rest.foldl min v

/-- The inline max-drawdown computation of
BacktestEngine.calculate_metrics. -/
def engine_max_drawdown (values : List ℚ) : ℚ :=
  let rm := cummax_list values
  list_min ((values.zip rm).map (fun p => (p.1 - p.2) / p.2))

/-- Actual direction labels after the first row, comparing each price
to its predecessor. -/
def directions_aux : ℚ → List ℚ → List Direction
  | _, [] => []
  | prev, p :: rest =>
    (if prev < p then Direction.UP
     else if p < prev then Direction.DOWN
     else Direction.FLAT) :: directions_aux p rest

/-- The actual_direction column of _calculate_technical_metrics: FLAT
for the first row, then UP/DOWN/FLAT against the previous actual
price. -/
def actual_directions (prices : List ℚ) : List Direction :=
  match prices with
  | [] => []
  | p :: rest => Direction.FLAT :: directions_aux p rest

/-- ML direction accuracy: fraction of rows whose predicted direction
matches the actual direction. -/
def ml_direction_accuracy_of (pred_hist : List PredRec) : ℚ :=
  if pred_hist.length = 0 then 0
  else
    (((pred_hist.map (fun r => r.direction)).zip
        (actual_directions (pred_hist.map (fun r => r.actual_price)))).countP
      (fun pq => decide (pq.1 = pq.2)) : ℚ) / pred_hist.length

/-- ML price RMSE: square root of the mean squared prediction error. -/
noncomputable def ml_price_rmse_of (pred_hist : List PredRec) : ℝ :=
  Real.sqrt (series_mean
    (pred_hist.map (fun r => (((r.predicted_price - r.actual_price : ℚ)) : ℝ)^2)))

/-- BacktestEngine._calculate_signal_win_rate: for each BUY signal with
an entry price, find the first later SELL trade; the signal wins when
that sell is above the entry. -/
def signal_win_rate (signals : List SignalRec) (trades : List Trade) : ℚ :=
  if signals.length = 0 ∨ trades.length = 0 then 0
  else
    let buys := signals.filter (fun s => decide (s.action = Action.BUY))
    let wt := buys.foldl (fun (acc : ℕ × ℕ) b =>
      match b.entry_price with
      | none => acc
      | some ep =>
        match trades.find? (fun tr =>
            decide (b.date < tr.date) && decide (tr.action = Action.SELL)) with
        | some sell =>
          (acc.1 + (if 0 < (sell.price - ep) / ep then 1 else 0), acc.2 + 1)
        | none => acc) (0, 0)
    if wt.2 ≠ 0 then (wt.1 : ℚ) / wt.2 else 0

/-- BacktestEngine._calculate_strategy_win_rate. -/
def strategy_win_rate (strat : Strategy) (signals : List SignalRec)
    (trades : List Trade) : ℚ :=
  signal_win_rate (signals.filter (fun s => decide (s.strategy = strat))) trades

/-- Pearson correlation; 0 stands for the NaN that pandas yields when
either series has zero variance, which the source maps to 0. -/
noncomputable def pearson (xs ys : List ℝ) : ℝ :=
  let mx := series_mean xs
  let my := series_mean ys
  let cov := ((xs.zip ys).map (fun p => (p.1 - mx) * (p.2 - my))).sum
  let vx := (xs.map (fun x => (x - mx)^2)).sum
  let vy := (ys.map (fun y => (y - my)^2)).sum
  if vx = 0 ∨ vy = 0 then 0 else cov / (Real.sqrt vx * Real.sqrt vy)

/-- Fear-greed correlation with next-step returns: each row's
fear-greed value against the following step's percentage return (the
last row has no next return and is dropped pairwise). -/
noncomputable def fg_correlation_of (pred_hist : List PredRec) : ℝ :=
  if pred_hist.length ≤ 1 then 0
  else
    let prices := pred_hist.map (fun r => r.actual_price)
    let rets := pct_change (prices.map (fun q => (q : ℝ)))
    let fgs := (pred_hist.map (fun r => (r.fear_greed : ℝ))).take rets.length
    pearson fgs rets

/-- Cast a rational series to the reals for the Sharpe pipeline. -/
noncomputable def rats_to_reals (xs : List ℚ) : List ℝ := xs.map (fun q => (q : ℝ))

/-- The Run Result dict of BacktestEngine.calculate_metrics, with
exactly the keys the source returns (business metrics plus the eight
technical metrics).  It carries no field recording whether the run
completed its date range or stopped early. -/
structure Metrics where
  initial_capital : ℚ
  final_value : ℚ
  total_return : ℚ
  sharpe : ℝ
  max_drawdown : ℚ
  win_rate : ℚ
  num_trades : ℕ
  avg_trade_return : ℚ
  buy_and_hold_return : ℚ
  ml_direction_accuracy : ℚ
  ml_price_rmse : ℝ
  rsi_signal_win_rate : ℚ
  macd_signal_win_rate : ℚ
  fg_correlation : ℝ
  dca_win_rate : ℚ
  swing_win_rate : ℚ
  stop_loss_win_rate : ℚ

/-- BacktestEngine.calculate_metrics together with _empty_metrics: the
final summary is taken at the end-date price; with no trades the empty
metrics are returned; otherwise Sharpe, max drawdown, win rate, average
trade return, buy-and-hold benchmark and the technical metrics are
computed from the recorded histories and the trade log. -/
noncomputable def calc_metrics_core (config : Config)
    (initial_price final_price : ℚ) (portfolio : Portfolio)
    (port_hist : List PortRec) (pred_hist : List PredRec)
    (signal_hist : List SignalRec) : Metrics :=
  let total_value := portfolio.cash + portfolio.btc * final_price
  let total_ret := (total_value - config.initial_capital) / config.initial_capital
  if portfolio.trades.length = 0 then
    { initial_capital := config.initial_capital, final_value := total_value,
      total_return := total_ret, sharpe := 0, max_drawdown := 0, win_rate := 0,
      num_trades := 0, avg_trade_return := 0, buy_and_hold_return := 0,
      ml_direction_accuracy := 0, ml_price_rmse := 0, rsi_signal_win_rate := 0,
      macd_signal_win_rate := 0, fg_correlation := 0, dca_win_rate := 0,
      swing_win_rate := 0, stop_loss_win_rate := 0 }
  else
    let values : List ℚ := port_hist.map (fun h => h.value)
    { initial_capital := config.initial_capital,
      final_value := total_value,
      total_return := total_ret,
      sharpe := sharpe_of_values (rats_to_reals values),
      max_drawdown := engine_max_drawdown values,
      win_rate := engine_win_rate portfolio.trades,
      num_trades := portfolio.trades.length,
      avg_trade_return := engine_avg_trade_return portfolio.trades,
      buy_and_hold_return := (final_price - initial_price) / initial_price,
      ml_direction_accuracy := ml_direction_accuracy_of pred_hist,
      ml_price_rmse := ml_price_rmse_of pred_hist,
      rsi_signal_win_rate :=
        signal_win_rate (signal_hist.filter (fun s => decide (s.rsi < 30)))
          portfolio.trades,
      macd_signal_win_rate :=
        signal_win_rate (signal_hist.filter (fun s => decide (0 < s.macd_diff)))
          portfolio.trades,
      fg_correlation := fg_correlation_of pred_hist,
      dca_win_rate := strategy_win_rate .DCA signal_hist portfolio.trades,
      swing_win_rate := strategy_win_rate .SWING signal_hist portfolio.trades,
      stop_loss_win_rate := strategy_win_rate .STOP_LOSS signal_hist portfolio.trades }

/-- BacktestEngine.run: after the loop (completed or broken early on
PAUSE) the metrics are computed from the recorded state; this is the
value run returns to its caller. -/
noncomputable def run_metrics (df : List Row) (config : Config)
    (start_date end_date : ℤ)
    (technical_feed : ℤ → Option Technical)
    (fear_greed_data : Option (List FGRec)) : Metrics :=
  let st := run_full df config technical_feed fear_greed_data start_date end_date
  calc_metrics_core config (lookup_price df start_date) (lookup_price df end_date)
    st.portfolio st.portfolio_history st.prediction_history st.signal_history

/-! ### Claim C1: anti-future-data -/

theorem fg_closest_aux_mem (current_date : ℤ) :
    ∀ (l : List FGRec) (best : Option FGRec) (rec : FGRec),
      fg_closest_aux current_date l best = some rec → rec ∈ l ∨ best = some rec := by
  intro l
  induction l with
  | nil =>
    intro best rec h
    exact Or.inr h
  | cons r rest ih =>
    intro best rec h
    unfold fg_closest_aux at h
    cases best with
    | none =>
      rcases ih (some r) rec h with hmem | heq
      · exact Or.inl (List.mem_cons_of_mem r hmem)
      · obtain rfl := Option.some.inj heq
        exact Or.inl (by simp)
    | some b =>
      simp only [] at h
      by_cases hlt : |r.timestamp - current_date| < |b.timestamp - current_date|
      · rw [if_pos hlt] at h
        rcases ih (some r) rec h with hmem | heq
        · exact Or.inl (List.mem_cons_of_mem r hmem)
        · obtain rfl := Option.some.inj heq
          exact Or.inl (by simp)
      · rw [if_neg hlt] at h
        rcases ih (some b) rec h with hmem | heq
        · exact Or.inl (List.mem_cons_of_mem r hmem)
        · exact Or.inr heq

/-- Concrete series for the claim C1 counterexample: a row one second
after the cutoff and a fear-greed record one day after the cutoff. -/
def df_c1 : List Row := [⟨0, 5⟩, ⟨1, 6⟩]

def fg_c1 : List FGRec := [⟨86400, 99⟩]

/-- Claim C1 counterexample: at cutoff 0 the indicator filter keeps the
row dated 1 second after the cutoff, and the fear-greed lookup selects
the record dated one day after the cutoff, feeding its value 99 into
the backtest sentiment — both violate the claim that no row after T is
used. -/
theorem claim_C1_counterexample :
    (⟨1, 6⟩ : Row) ∈ indicator_rows df_c1 0 ∧ (0 : ℤ) < 1 ∧
    fg_lookup fg_c1 0 = some ⟨86400, 99⟩ ∧ (0 : ℤ) < 86400 ∧
    (get_sentiment_backtest (some fg_c1) technical_neutral 0).fear_greed_score =
      some 99 := by
  refine ⟨?_, by norm_num, ?_, by norm_num, ?_⟩
  · simp [indicator_rows, df_c1]
  · rfl
  · rfl

/-- Claim C1 as amended: the indicator computation filters the series
to rows dated at most one second after the cutoff (the source adds a
one-second buffer), and the historical fear-greed lookup selects only
records dated within one day either side of the cutoff; so a row up to
one second after T (indicators) or one day after T (fear-greed) can be
used, and nothing later. -/
theorem claim_C1_amended :
    (∀ (df : List Row) (d : ℤ) (r : Row), r ∈ indicator_rows df d →
      r.date ≤ d + 1) ∧
    (∀ (data : List FGRec) (d : ℤ) (rec : FGRec), fg_lookup data d = some rec →
      d - 86400 ≤ rec.timestamp ∧ rec.timestamp ≤ d + 86400) := by
  constructor
  · intro df d r hr
    have := List.of_mem_filter hr
    simpa using of_decide_eq_true this
  · intro data d rec h
    unfold fg_lookup at h
    rcases fg_closest_aux_mem d _ none rec h with hmem | heq
    · have := List.of_mem_filter hmem
      simp only [Bool.and_eq_true, decide_eq_true_eq] at this
      exact this
    · cases heq

/-- Witness for claim C1 as amended: the indicator bound applied to the
row one second after cutoff 0, and the fear-greed bound applied to the
record one day after cutoff 0. -/
theorem claim_C1_witness :
    ((1 : ℤ) ≤ 0 + 1) ∧ ((0 : ℤ) - 86400 ≤ 86400 ∧ (86400 : ℤ) ≤ 0 + 86400) :=
  ⟨claim_C1_amended.1 df_c1 0 ⟨1, 6⟩ (by simp [indicator_rows, df_c1]),
   claim_C1_amended.2 fg_c1 0 ⟨86400, 99⟩ rfl⟩

/-! ### Claim C7: Sharpe ratio -/

/-- Claim C7: the Sharpe ratio reported in the Run Result is the
engine's inline computation over the per-step percentage returns of
the recorded portfolio-value series; whenever that return series has
at least two observations and positive variance it equals
(mean times 252 minus the risk-free rate) divided by (standard
deviation times the square root of 252), where the engine's implicit
risk-free rate is 0; and it is 0 whenever the return series has zero
variance or fewer than two observations. -/
theorem claim_C7_sharpe :
    (∀ (cfg : Config) (ip fp : ℚ) (port : Portfolio) (ph : List PortRec)
        (predh : List PredRec) (sigh : List SignalRec),
      port.trades.length ≠ 0 →
      (calc_metrics_core cfg ip fp port ph predh sigh).sharpe =
        sharpe_of_values (rats_to_reals (ph.map (fun h => h.value)))) ∧
    (∀ values : List ℝ, 2 ≤ (pct_change values).length →
      0 < series_var (pct_change values) →
      sharpe_of_values values =
        (series_mean (pct_change values) * 252 - engine_risk_free_rate) /
          (Real.sqrt (series_var (pct_change values)) * Real.sqrt 252)) ∧
    (∀ values : List ℝ, 2 ≤ (pct_change values).length →
      series_var (pct_change values) = 0 → sharpe_of_values values = 0) ∧
    (∀ values : List ℝ, (pct_change values).length < 2 →
      sharpe_of_values values = 0) := by
  refine ⟨?_, ?_, ?_, ?_⟩
  · intro cfg ip fp port ph predh sigh htr
    unfold calc_metrics_core
    rw [if_neg htr]
  · intro values hlen hvar
    have hs : (0:ℝ) < Real.sqrt (series_var (pct_change values)) :=
      Real.sqrt_pos.mpr hvar
    have h252 : (0:ℝ) < Real.sqrt 252 := Real.sqrt_pos.mpr (by norm_num)
    unfold sharpe_of_values series_std
    simp only []
    rw [if_pos hlen]
    simp only []
    rw [if_pos ⟨by omega, hs⟩]
    rw [engine_risk_free_rate, sub_zero]
    rw [div_mul_eq_mul_div, div_eq_div_iff (ne_of_gt hs)
      (mul_ne_zero (ne_of_gt hs) (ne_of_gt h252))]
    have hsq : (Real.sqrt 252) ^ 2 = 252 := Real.sq_sqrt (by norm_num)
    ring_nf
    rw [hsq]
    ring
  · intro values hlen hvar
    unfold sharpe_of_values series_std
    simp only []
    rw [if_pos hlen]
    simp only []
    rw [if_neg]
    rintro ⟨-, hpos⟩
    rw [hvar, Real.sqrt_zero] at hpos
    exact absurd hpos (lt_irrefl 0)
  · intro values hlen
    unfold sharpe_of_values series_std
    simp only []
    rw [if_neg (show ¬2 ≤ (pct_change values).length by omega)]

/-- Witness for claim C7: a single recorded portfolio value yields an
empty return series and a Sharpe ratio of 0. -/
theorem claim_C7_witness :
    (pct_change [(10000 : ℝ)]).length < 2 ∧ sharpe_of_values [(10000 : ℝ)] = 0 := by
  have hlen : (pct_change [(10000 : ℝ)]).length < 2 := by
    simp [pct_change]
  exact ⟨hlen, claim_C7_sharpe.2.2.2 [(10000 : ℝ)] hlen⟩

/-! ### Claim C9: input validation -/

/-- The historical series is sorted ascending by timestamp. -/
def dates_sorted (df : List Row) : Prop :=
  List.Chain' (fun a b => a ≤ b) (df.map (fun r => r.date))

/-- The historical series has no duplicate timestamps. -/
def no_duplicate_dates (df : List Row) : Prop :=
  (df.map (fun r => r.date)).Nodup

/-- The historical series has strictly positive prices. -/
def prices_positive (df : List Row) : Prop :=
  ∀ r ∈ df, 0 < r.price

theorem run_loop_steps (df : List Row) (config : Config)
    (technical_feed : ℤ → Option Technical)
    (fear_greed_data : Option (List FGRec)) :
    ∀ (dates : List ℤ) (st : LoopState),
      (run_loop df config technical_feed fear_greed_data dates st).broke_early = false →
      (run_loop df config technical_feed fear_greed_data dates st).steps_seen =
        st.steps_seen + dates.length := by
  intro dates
  induction dates with
  | nil =>
    intro st h
    simp [run_loop]
  | cons d rest ih =>
    intro st h
    rw [run_loop] at h ⊢
    simp only [] at h ⊢
    cases hfd : technical_feed d with
    | none =>
      rw [hfd] at h
      simp only [] at h ⊢
      rw [ih _ h]
      simp only [List.length_cons]
      omega
    | some technical =>
      rw [hfd] at h
      simp only [] at h ⊢
      split at h
      case isTrue hcond =>
        simp at h
      case isFalse hcond =>
        rw [if_neg hcond]
        rw [ih _ h]
        simp only [List.length_cons]
        omega

theorem hold_eq_pause_iff : (Action.HOLD = Action.PAUSE) ↔ False :=
  ⟨fun h => Action.noConfusion h, False.elim⟩

theorem hold_eq_buy_iff : (Action.HOLD = Action.BUY) ↔ False :=
  ⟨fun h => Action.noConfusion h, False.elim⟩

theorem hold_eq_sell_iff : (Action.HOLD = Action.SELL) ↔ False :=
  ⟨fun h => Action.noConfusion h, False.elim⟩

theorem buy_eq_pause_iff : (Action.BUY = Action.PAUSE) ↔ False :=
  ⟨fun h => Action.noConfusion h, False.elim⟩

theorem buy_eq_sell_iff : (Action.BUY = Action.SELL) ↔ False :=
  ⟨fun h => Action.noConfusion h, False.elim⟩

theorem sell_eq_pause_iff : (Action.SELL = Action.PAUSE) ↔ False :=
  ⟨fun h => Action.noConfusion h, False.elim⟩

theorem sell_eq_buy_iff : (Action.SELL = Action.BUY) ↔ False :=
  ⟨fun h => Action.noConfusion h, False.elim⟩

/-- Malformed series for the claim C9 counterexample: out-of-order
dates, a duplicated date, and a non-positive price. -/
def df_c9 : List Row := [⟨2, 100⟩, ⟨1, -5⟩, ⟨1, 7⟩]

/-- Technical feed that always answers with the neutral snapshot. -/
def feed_neutral : ℤ → Option Technical := fun _ => some technical_neutral

/-- Claim C9 counterexample: the series is unsorted, has a duplicate
timestamp and a non-positive price, yet the engine runs the day-by-day
loop over all three of its in-range rows (three iterations, no early
exit) instead of failing fast before the loop: the engine performs no
load-time validation. -/
theorem claim_C9_counterexample :
    ¬dates_sorted df_c9 ∧ ¬no_duplicate_dates df_c9 ∧ ¬prices_positive df_c9 ∧
    (run_full df_c9 config0 feed_neutral none 1 2).steps_seen = 3 ∧
    (run_full df_c9 config0 feed_neutral none 1 2).broke_early = false := by
  refine ⟨?_, ?_, ?_, ?_, ?_⟩
  · intro h
    simp only [dates_sorted, df_c9, List.map, List.chain'_cons] at h
    omega
  · intro h
    simp [no_duplicate_dates, df_c9] at h
  · intro h
    have := h ⟨1, -5⟩ (by simp [df_c9])
    norm_num at this
  · norm_num [run_full, test_dates, df_c9, initial_state, run_loop, lookup_price,
      get_sentiment_backtest, calculate_fg_confidence_multiplier, make_decision,
      check_circuit_breaker, check_stop_loss, check_take_profit, check_swing_entry,
      check_dca_conditions, execute_trade, initial_portfolio, config0,
      technical_neutral, feed_neutral, hold_eq_pause_iff, hold_eq_buy_iff,
      hold_eq_sell_iff, buy_eq_pause_iff, buy_eq_sell_iff, sell_eq_pause_iff,
      sell_eq_buy_iff]
  · norm_num [run_full, test_dates, df_c9, initial_state, run_loop, lookup_price,
      get_sentiment_backtest, calculate_fg_confidence_multiplier, make_decision,
      check_circuit_breaker, check_stop_loss, check_take_profit, check_swing_entry,
      check_dca_conditions, execute_trade, initial_portfolio, config0,
      technical_neutral, feed_neutral, hold_eq_pause_iff, hold_eq_buy_iff,
      hold_eq_sell_iff, buy_eq_pause_iff, buy_eq_sell_iff, sell_eq_pause_iff,
      sell_eq_buy_iff]

/-- Claim C9 as amended: the Backtest Engine performs no validation of
the historical series at load time; the day-by-day loop runs over every
in-range row of any series, malformed or not, and nothing but the
circuit-breaker PAUSE stops it before the end of the range. -/
theorem claim_C9_amended (df : List Row) (config : Config)
    (technical_feed : ℤ → Option Technical)
    (fear_greed_data : Option (List FGRec)) (start_date end_date : ℤ)
    (h : (run_full df config technical_feed fear_greed_data
        start_date end_date).broke_early = false) :
    (run_full df config technical_feed fear_greed_data
        start_date end_date).steps_seen =
      (test_dates df start_date end_date).length := by
  unfold run_full
  have := run_loop_steps df config technical_feed fear_greed_data
    (test_dates df start_date end_date) (initial_state config) (by
      unfold run_full at h
      exact h)
  rw [this]
  simp [initial_state]

/-- Witness for claim C9 as amended: the malformed series is processed
end to end, three loop iterations for its three in-range rows. -/
theorem claim_C9_witness :
    (run_full df_c9 config0 feed_neutral none 1 2).steps_seen =
      (test_dates df_c9 1 2).length :=
  claim_C9_amended df_c9 config0 feed_neutral none 1 2 (by
    norm_num [run_full, test_dates, df_c9, initial_state, run_loop, lookup_price,
      get_sentiment_backtest, calculate_fg_confidence_multiplier, make_decision,
      check_circuit_breaker, check_stop_loss, check_take_profit, check_swing_entry,
      check_dca_conditions, execute_trade, initial_portfolio, config0,
      technical_neutral, feed_neutral, hold_eq_pause_iff, hold_eq_buy_iff,
      hold_eq_sell_iff, buy_eq_pause_iff, buy_eq_sell_iff, sell_eq_pause_iff,
      sell_eq_buy_iff])

/-! ### Claim C5: early termination and the Run Result -/

/-- Aggressive configuration for the claim C5 runs: one DCA buy nearly
exhausts the cash, so a price crash trips the circuit breaker. -/
def cfg_c5 : Config :=
  { initial_capital := 1000, dca_amount := 900, swing_amount := 2000,
    rsi_oversold := 30, rsi_overbought := 70, k_atr := 2,
    fear_threshold := 40, rag_threshold := 7/10,
    swing_confidence_threshold := none }

/-- Oversold snapshot that fires the DCA rule on every step. -/
def tech_c5 : Technical :=
  { RSI := some 20, ATR := some 0, MACD_diff := some 0,
    SMA_50 := none, SMA_200 := none }

def feed_c5 : ℤ → Option Technical := fun _ => some tech_c5

/-- Three-day series whose second day crashes, tripping the breaker
before the run reaches its requested end date 3. -/
def df_c5a : List Row := [⟨1, 100⟩, ⟨2, 10⟩, ⟨3, 100⟩]

/-- One-day series identical to the first day of the crashing run; its
loop reaches its requested end date 1. -/
def df_c5b : List Row := [⟨1, 100⟩]

/-- Portfolio after the shared first step: a 900 DCA buy at price 100. -/
def portfolio_c5 : Portfolio :=
  { cash := 100, btc := 9, entry_price := some 100, last_dca_price := some 100,
    trades := [⟨1, .BUY, .DCA, 100, 900⟩] }

/-- Loop state of the crashing run: one recorded step, then the PAUSE
on day 2 breaks the loop before recording. -/
def state_c5a : LoopState :=
  { portfolio := portfolio_c5,
    prediction_history := [⟨1, 100, .FLAT, 1/2, 100, 20, 0, 20⟩],
    signal_history := [⟨1, .BUY, .DCA, 20, 0, 20, some 100, none⟩],
    portfolio_history := [⟨1, 1000, 100, 9, 100⟩],
    broke_early := true, steps_seen := 2 }

/-- Loop state of the completed one-day run: identical recorded data,
no early exit. -/
def state_c5b : LoopState :=
  { state_c5a with broke_early := false, steps_seen := 1 }

theorem run_full_c5a_eval :
    run_full df_c5a cfg_c5 feed_c5 none 1 3 = state_c5a := by
  norm_num [run_full, test_dates, df_c5a, initial_state, run_loop, lookup_price,
    get_sentiment_backtest, calculate_fg_confidence_multiplier, make_decision,
    check_circuit_breaker, check_stop_loss, check_take_profit, check_swing_entry,
    check_dca_conditions, execute_trade, initial_portfolio, cfg_c5, tech_c5,
    feed_c5, state_c5a, portfolio_c5, min_def, hold_eq_pause_iff,
    hold_eq_buy_iff, hold_eq_sell_iff, buy_eq_pause_iff, buy_eq_sell_iff,
    sell_eq_pause_iff, sell_eq_buy_iff, List.find?]

theorem run_full_c5b_eval :
    run_full df_c5b cfg_c5 feed_c5 none 1 1 = state_c5b := by
  norm_num [run_full, test_dates, df_c5b, initial_state, run_loop, lookup_price,
    get_sentiment_backtest, calculate_fg_confidence_multiplier, make_decision,
    check_circuit_breaker, check_stop_loss, check_take_profit, check_swing_entry,
    check_dca_conditions, execute_trade, initial_portfolio, cfg_c5, tech_c5,
    feed_c5, state_c5b, state_c5a, portfolio_c5, min_def, hold_eq_pause_iff,
    hold_eq_buy_iff, hold_eq_sell_iff, buy_eq_pause_iff, buy_eq_sell_iff,
    sell_eq_pause_iff, sell_eq_buy_iff, List.find?]

/-- Claim C5 counterexample: a run terminated early by the circuit
breaker on day 2 of 3 and a run that completed its full one-day range
return exactly the same Run Result, so the Run Result contains no
explicit indicator distinguishing early termination from completion. -/
theorem claim_C5_counterexample :
    run_metrics df_c5a cfg_c5 1 3 feed_c5 none =
      run_metrics df_c5b cfg_c5 1 1 feed_c5 none ∧
    (run_full df_c5a cfg_c5 feed_c5 none 1 3).broke_early = true ∧
    (run_full df_c5b cfg_c5 feed_c5 none 1 1).broke_early = false := by
  have h1 : lookup_price df_c5a 1 = 100 := by
    norm_num [lookup_price, df_c5a, List.find?]
  have h3 : lookup_price df_c5a 3 = 100 := by
    norm_num [lookup_price, df_c5a, List.find?]
  have hb1 : lookup_price df_c5b 1 = 100 := by
    norm_num [lookup_price, df_c5b, List.find?]
  refine ⟨?_, ?_, ?_⟩
  · unfold run_metrics
    simp only []
    rw [run_full_c5a_eval, run_full_c5b_eval, h1, h3, hb1]
    rfl
  · rw [run_full_c5a_eval]; rfl
  · rw [run_full_c5b_eval]; rfl

/-- Claim C5 as amended: a run terminated early by the circuit-breaker
PAUSE is not reported as a failure — the Run Result is still computed
from the trades that did occur (here: one trade, final value 1000,
zero return, zero win rate) — but the Run Result carries no explicit
indicator that the run stopped before its requested end date. -/
theorem claim_C5_amended :
    (run_full df_c5a cfg_c5 feed_c5 none 1 3).broke_early = true ∧
    (run_metrics df_c5a cfg_c5 1 3 feed_c5 none).num_trades = 1 ∧
    (run_metrics df_c5a cfg_c5 1 3 feed_c5 none).final_value = 1000 ∧
    (run_metrics df_c5a cfg_c5 1 3 feed_c5 none).total_return = 0 ∧
    (run_metrics df_c5a cfg_c5 1 3 feed_c5 none).win_rate = 0 := by
  have h1 : lookup_price df_c5a 1 = 100 := by
    norm_num [lookup_price, df_c5a, List.find?]
  have h3 : lookup_price df_c5a 3 = 100 := by
    norm_num [lookup_price, df_c5a, List.find?]
  refine ⟨by rw [run_full_c5a_eval]; rfl, ?_, ?_, ?_, ?_⟩
  all_goals
    unfold run_metrics
    simp only []
    rw [run_full_c5a_eval, h1, h3]
    norm_num [calc_metrics_core, state_c5a, portfolio_c5, engine_win_rate,
      buy_sell_pairs, winning_trades, cfg_c5]

end BTCBT
